import Mathlib

/-!
Shallow embedding of the execution/orchestration subsystem of
k-wave-python: `kwave/executor.py` (platform and device resolution,
binary permission handling, solver invocation environment, result
reading) and `examples/simulation.py` (scan loop, load/stack pipeline).
Definitions are translated from the source; theorems settle the frozen
claims about it.
-/

/-! ## Definitions -/

/-! ### Python string prefix test -/

/-- Embedding of Python `s.startswith(pre)` on character lists. -/
def pyStartswith : List Char → List Char → Bool
  | _, [] => true
  | [], _ :: _ => false
  | c :: s, p :: ps => (p == c) && pyStartswith s ps

/-- The `linux` platform prefix tested by `Executor.__init__`. -/
def linuxChars : List Char := ['l', 'i', 'n', 'u', 'x']

/-- The `win` platform prefix tested by `Executor.__init__`. -/
def winChars : List Char := ['w', 'i', 'n']

/-- The `cygwin` platform prefix tested by `Executor.__init__`. -/
def cygwinChars : List Char := ['c', 'y', 'g', 'w', 'i', 'n']

/-- The `darwin` platform prefix tested by `Executor.__init__`. -/
def darwinChars : List Char := ['d', 'a', 'r', 'w', 'i', 'n']

/-! ### Executor construction (`Executor.__init__`)

The constructor resolves a binary folder and name from
`(sys.platform, device)`, raising `NotImplementedError` on an
unrecognized platform and `ValueError` on an unrecognized device, and
finally calls `_make_binary_executable`, which chmods the resolved
binary to `st_mode | stat.S_IEXEC`.  File-system state is threaded
explicitly as the binary's permission mode (a natural number); every
`raise` in the Python source happens before the chmod, so the error
branches return the mode unchanged. -/

/-- Exceptions raised by `Executor.__init__`. -/
inductive ExecError where
  | notImplementedError
  | valueError
  deriving DecidableEq, Repr

/-- Result of a successful construction: the resolved folder and binary
name, and how many warnings were emitted on the way. -/
structure InitResult where
  binaryFolder : String
  binaryName : String
  warningsEmitted : Nat
  deriving DecidableEq, Repr

/-- `stat.S_IEXEC` = octal 0100 = owner-execute bit. -/
def S_IEXEC : Nat := 64

/-- `stat.S_IXGRP` = octal 0010 = group-execute bit. -/
def S_IXGRP : Nat := 8

/-- `stat.S_IXOTH` = octal 0001 = other-execute bit. -/
def S_IXOTH : Nat := 1

/-- `Executor._make_binary_executable`:
`self.binary_path.chmod(self.binary_path.stat().st_mode | stat.S_IEXEC)`. -/
def makeBinaryExecutable (st_mode : Nat) : Nat :=
  st_mode ||| S_IEXEC

/-- The device-suffix step of `Executor.__init__`: append `-CUDA` for
gpu, `-OMP` for cpu, otherwise raise `ValueError`. -/
def deviceSuffixStep (binaryName device : String) : Except ExecError String :=
  if device == "gpu" then .ok (binaryName ++ "-CUDA")
  else if device == "cpu" then .ok (binaryName ++ "-OMP")
  else .error .valueError

/-- Tail of `Executor.__init__` after the platform branch: device
suffixing followed by `_make_binary_executable`; a `ValueError` raise
happens before the chmod, leaving the mode unchanged. -/
def finishInit (binaryFolder binaryName device : String) (warns st_mode : Nat) :
    Except ExecError InitResult × Nat :=
  match deviceSuffixStep binaryName device with
  | .error e => (.error e, st_mode)
  | .ok name => (.ok ⟨binaryFolder, name, warns⟩, makeBinaryExecutable st_mode)

/-- `Executor.__init__`, with `sys.platform` as a character list, the
device as a string, and the binary's permission mode threaded through.
Returns the construction outcome and the final permission mode. -/
def executorInit (platform : List Char) (device : String) (st_mode : Nat) :
    Except ExecError InitResult × Nat :=
  let binaryName := "kspaceFirstOrder"
  if pyStartswith platform linuxChars then
    finishInit "linux" binaryName device 0 st_mode
  else if pyStartswith platform winChars || pyStartswith platform cygwinChars then
    finishInit "windows" (binaryName ++ ".exe") device 0 st_mode
  else if pyStartswith platform darwinChars then
    if device == "gpu" then
      finishInit "darwin" binaryName "cpu" 1 st_mode
    else
      finishInit "darwin" binaryName device 0 st_mode
  else
    (.error .notImplementedError, st_mode)

/-! ### Environment overlay (`Executor.run_simulation`, lines 48-53)

`os.environ.update(env_variables)` overlays the ambient process
environment, modelled as a partial map from names to values. -/

/-- The `env_variables` dictionary built by `run_simulation`. -/
def envVariables : List (String × String) :=
  [("LD_LIBRARY_PATH", ""), ("OMP_PLACES", "cores"), ("OMP_PROC_BIND", "SPREAD")]

/-- Embedding of `os.environ.update(upd)`: keys present in `upd` take
its value, all other keys keep the ambient value. -/
def osEnvironUpdate (env : String → Option String) (upd : List (String × String)) :
    String → Option String :=
  fun k =>
    match upd.lookup k with
    | some v => some v
    | none => env k

/-! ### Return-code handling (`Executor.run_simulation`, lines 59-63)

`assert return_code == 0` inside `try ... except AssertionError`; the
except body logs only when the return code is a
`unittest.mock.MagicMock`.  A Python return code is either an integer
(real `os.system` result) or a `MagicMock` (tests). -/

/-- A Python value appearing as `return_code`. -/
inductive PyRet where
  | intCode (n : Int)
  | magicMock
  deriving DecidableEq, Repr

/-- Truth value of `return_code == 0`: a `MagicMock` compares unequal
to `0`. -/
def assertPasses : PyRet → Bool
  | .intCode n => n == 0
  | .magicMock => false

/-- Outcome of the `try`/`except AssertionError` block around the
assert: first component — whether the block lets an exception escape
(the `except` clause catches the only exception the body can raise, so
never); second — whether `logging.info` ran (only in the `MagicMock`
branch of the except body). -/
def handleReturnCode (rc : PyRet) : Bool × Bool :=
  if assertPasses rc then (false, false)
  else
    match rc with
    | .magicMock => (false, true)
    | .intCode _ => (false, false)

/-! ### Result reading (`Executor.run_simulation`, lines 65-68)

`with h5py.File(output_filename, 'r') as hf:
  sensor_data = np.array(hf['p'])[0].T`.
An HDF5 file is a list of named 3-dimensional datasets; element type is
a parameter (the claims are structural, not about float values). -/

/-- Errors the reading step can raise: `KeyError` when the dataset is
absent, `IndexError` when its leading axis is empty. -/
inductive ReadErr where
  | keyError
  | indexError
  deriving DecidableEq, Repr

/-- A structured output container: named 3-dimensional datasets. -/
structure H5File (α : Type) where
  datasets : List (String × List (List (List α)))

/-- Embedding of numpy 2-D transpose `a.T`: result row `i` collects
entry `i` of every row of `a`; for a rectangular `r × c` input the
result is `c × r` with `result[i][j] = a[j][i]`. -/
def npTranspose [Inhabited α] (m : List (List α)) : List (List α) :=
  (List.range (m.headD []).length).map fun i => m.map fun row => row.getD i default

/-- `np.array(hf['p'])[0].T`: look up dataset `p`, take index 0 along
its leading axis, transpose. -/
def readSensorData [Inhabited α] (f : H5File α) : Except ReadErr (List (List α)) :=
  match f.datasets.lookup "p" with
  | none => .error .keyError
  | some [] => .error .indexError
  | some (s :: _) => .ok (npTranspose s)

/-- The `with h5py.File(...)` block around the read: by the semantics
of the Python `with` statement the handle is released on every exit
path; the boolean records that the handle was released. -/
def runWithFile [Inhabited α] (f : H5File α) :
    Except ReadErr (List (List α)) × Bool :=
  match readSensorData f with
  | .ok a => (.ok a, true)
  | .error e => (.error e, true)

/-! ### `Executor.run_simulation` as a whole -/

/-- Observable outcome of one `run_simulation` call: the ambient
environment after the call returns, whether the return-code check let
an exception escape, whether the mock-skip message was logged, and the
result of the reading step. -/
structure RunOutcome (α : Type) where
  envAfter : String → Option String
  raisedFromExitStatus : Bool
  loggedMockSkip : Bool
  result : Except ReadErr (List (List α))

/-- `run_simulation`: update `os.environ` (never rolled back), launch
the solver (its exit status `rc` and the container it wrote are inputs
to the model), run the return-code check, read the output container. -/
def runSimulation [Inhabited α] (env : String → Option String) (rc : PyRet)
    (outputFile : H5File α) : RunOutcome α :=
  let envAfter := osEnvironUpdate env envVariables
  let rcOutcome := handleReturnCode rc
  { envAfter := envAfter
    raisedFromExitStatus := rcOutcome.1
    loggedMockSkip := rcOutcome.2
    result := (runWithFile outputFile).1 }

/-! ### Load-and-stack pipeline (`load_simulations`)

`for i in range(1, 97): ... simulation_data.append(sensor_data)` then
`np.stack(simulation_data, axis=0)`.  The per-unit read (h5 open,
dataset extraction and the external `combine_sensor_data`) is
abstracted as `readUnit : Nat → List (List α)`, the per-unit result
array; the claims quantify over those arrays. -/

/-- The accumulation loop of `load_simulations`, generalized from the
hard-coded `range(1, 97)` to `range(1, N + 1)`: starts from the empty
list and appends the unit results in index order. -/
def loadSimulations (N : Nat) (readUnit : Nat → List (List α)) :
    List (List (List α)) :=
  (List.range' 1 N).foldl (fun acc i => acc ++ [readUnit i]) []

/-- Embedding of `np.stack(arrays, axis=0)` for 2-D arrays of uniform
shape: the 3-D array whose leading-axis element `k` is `arrays[k]`,
which is exactly the list itself read as a 3-D array. -/
def npStack (arrays : List (List (List α))) : List (List (List α)) :=
  arrays

/-- Shape of a 2-D array: (rows, columns). -/
def dims2 (m : List (List α)) : Nat × Nat :=
  (m.length, (m.headD []).length)

/-! ### Scan loop medium windows (`prepare_simulations`, lines 145-180)

`medium_position = 0`; for each scan line the medium slice
`[:, medium_position : medium_position + Ny, :]` is read and then
`medium_position += transducer.element_width`.  The windows along axis
1 are recorded as (start, stop) pairs. -/

/-- The sequential accumulation: `n` remaining iterations starting at
position `pos`, advancing by `step` after each unit; each unit reads
the axis-1 window `(pos, pos + ny)`. -/
def scanLoopWindows (step ny : Nat) : Nat → Nat → List (Nat × Nat)
  | 0, _ => []
  | n + 1, pos => (pos, pos + ny) :: scanLoopWindows step ny n (pos + step)

/-- The scan loop over units `1..N` starting from `medium_position = 0`. -/
def prepareScanWindows (N step ny : Nat) : List (Nat × Nat) :=
  scanLoopWindows step ny N 0

/-- Modelled from the spec: the closed-form offset
`offset(i) = (i - 1) * step` computed from the unit index directly. -/
def specOffsetOfIndex (i step : Nat) : Nat :=
  (i - 1) * step

/-- Modelled from the spec: the axis-1 window of unit `i` computed from
its index directly, `[offset(i), offset(i) + ny)`. -/
def specWindowOfIndex (i step ny : Nat) : Nat × Nat :=
  (specOffsetOfIndex i step, specOffsetOfIndex i step + ny)

/-! ## Helper lemmas -/

/-- A string starting with `c :: cs` cannot start with `d :: ds` when
`d` differs from `c`. -/
theorem pyStartswith_head_ne (s : List Char) (c d : Char) (cs ds : List Char)
    (hne : (d == c) = false) (h : pyStartswith s (c :: cs) = true) :
    pyStartswith s (d :: ds) = false := by
  cases s with
  | nil => simp [pyStartswith] at h
  | cons a t =>
    simp only [pyStartswith, Bool.and_eq_true] at h
    have hca : c = a := eq_of_beq h.1
    subst hca
    simp [pyStartswith, hne]

/-- A string starting with `darwin` starts with none of the other
tested prefixes. -/
theorem darwin_excludes (s : List Char) (h : pyStartswith s darwinChars = true) :
    pyStartswith s linuxChars = false ∧ pyStartswith s winChars = false ∧
      pyStartswith s cygwinChars = false := by
  refine ⟨?_, ?_, ?_⟩
  · exact pyStartswith_head_ne s 'd' 'l' _ _ (by decide) h
  · exact pyStartswith_head_ne s 'd' 'w' _ _ (by decide) h
  · exact pyStartswith_head_ne s 'd' 'c' _ _ (by decide) h

/-- If the tail of the constructor succeeds, the final mode is the old
mode or-ed with the owner-execute bit. -/
theorem finishInit_ok_mode (binaryFolder binaryName device : String)
    (warns st_mode : Nat)
    (h : (finishInit binaryFolder binaryName device warns st_mode).1.isOk = true) :
    (finishInit binaryFolder binaryName device warns st_mode).2 =
      st_mode ||| S_IEXEC := by
  unfold finishInit at *
  cases hd : deviceSuffixStep binaryName device with
  | error e => rw [hd] at h; simp [Except.isOk, Except.toBool] at h
  | ok name => simp only [hd]; rfl

/-- Or-ing in the owner-execute bit makes bit 6 set. -/
theorem or_S_IEXEC_testBit_six (m : Nat) :
    Nat.testBit (m ||| S_IEXEC) 6 = true := by
  rw [Nat.testBit_or]
  have h64 : Nat.testBit S_IEXEC 6 = true := by decide
  rw [h64, Bool.or_true]

/-- The transpose has one row per column of the input. -/
theorem npTranspose_length [Inhabited α] (m : List (List α)) :
    (npTranspose m).length = (m.headD []).length := by
  simp [npTranspose]

/-- Entry characterization of the embedded numpy transpose: entry
`(i, j)` of the transpose is entry `(j, i)` of the input. -/
theorem npTranspose_entry [Inhabited α] (m : List (List α)) (i j : Nat)
    (hi : i < (m.headD []).length) (hj : j < m.length) :
    ((npTranspose m).getD i []).getD j default =
      (m.getD j []).getD i default := by
  have hlen : i < (npTranspose m).length := by rw [npTranspose_length]; exact hi
  rw [List.getD_eq_getElem _ _ hlen]
  unfold npTranspose
  rw [List.getElem_map, List.getElem_range]
  have hjm : j < (m.map fun row => row.getD i default).length := by simpa using hj
  rw [List.getD_eq_getElem _ _ hjm, List.getElem_map]
  rw [List.getD_eq_getElem _ _ hj]

/-- Appending through a fold is mapping: the loop accumulator ends as
the initial accumulator followed by the per-index results in order. -/
theorem foldl_append_eq_map (l : List Nat) (r : Nat → β) :
    ∀ acc : List β, l.foldl (fun a i => a ++ [r i]) acc = acc ++ l.map r := by
  induction l with
  | nil => intro acc; simp
  | cons x xs ih => intro acc; simp [List.foldl_cons, ih]

/-- The load loop produces the per-unit results for indices `1..N` in
order. -/
theorem loadSimulations_eq_map (N : Nat) (readUnit : Nat → List (List α)) :
    loadSimulations N readUnit = (List.range' 1 N).map readUnit := by
  unfold loadSimulations
  rw [foldl_append_eq_map]
  simp

/-- The scan-loop windows from any start position: the window of the
`k`-th remaining iteration starts `k` steps after `pos`. -/
theorem scanLoopWindows_getD (step ny : Nat) :
    ∀ (n pos k : Nat), k < n →
      (scanLoopWindows step ny n pos).getD k (0, 0) =
        (pos + k * step, pos + k * step + ny) := by
  intro n
  induction n with
  | zero => intro pos k hk; omega
  | succ n ih =>
    intro pos k hk
    cases k with
    | zero => simp [scanLoopWindows]
    | succ k =>
      have hk' : k < n := by omega
      simp only [scanLoopWindows, List.getD_cons_succ]
      rw [ih (pos + step) k hk']
      ring_nf

/-! ## Claim theorems -/

/-- C1: on any platform of the Darwin family with device target gpu,
`Executor.__init__` succeeds, emits exactly one warning, resolves the
CPU-variant binary (`-OMP` suffix, folder `darwin`), and performs the
chmod; it raises no exception. -/
theorem darwin_gpu_constructs_cpu_variant (platform : List Char) (st_mode : Nat)
    (h : pyStartswith platform darwinChars = true) :
    executorInit platform "gpu" st_mode =
      (.ok ⟨"darwin", "kspaceFirstOrder-OMP", 1⟩, st_mode ||| S_IEXEC) := by
  obtain ⟨h1, h2, h3⟩ := darwin_excludes platform h
  simp only [executorInit, h, h1, h2, h3, Bool.or_self, if_false, if_true]
  rfl

theorem darwin_gpu_constructs_cpu_variant_witness :
    pyStartswith darwinChars darwinChars = true ∧
      executorInit darwinChars "gpu" 420 =
        (.ok ⟨"darwin", "kspaceFirstOrder-OMP", 1⟩, 420 ||| S_IEXEC) :=
  ⟨by decide, darwin_gpu_constructs_cpu_variant darwinChars 420 (by decide)⟩

/-- C2 counterexample: a successful construction (linux, cpu, starting
mode octal 0644 = 420) after which the group-execute bit (bit 3) is
still clear — the constructor adds only the owner-execute bit, not
group or other execute. -/
theorem successful_init_group_exec_missing :
    (executorInit linuxChars "cpu" 420).1.isOk = true ∧
      Nat.testBit (executorInit linuxChars "cpu" 420).2 3 = false := by
  decide

/-- C2 (amended): after every successful construction the final mode is
the starting mode or-ed with `S_IEXEC`, so the owner-execute bit is
set; group and other execute bits are left as they were. -/
theorem successful_init_adds_owner_exec (platform : List Char) (device : String)
    (st_mode : Nat)
    (h : (executorInit platform device st_mode).1.isOk = true) :
    (executorInit platform device st_mode).2 = st_mode ||| S_IEXEC ∧
      Nat.testBit (executorInit platform device st_mode).2 6 = true := by
  revert h
  unfold executorInit
  split
  · intro h
    refine ⟨finishInit_ok_mode _ _ _ _ _ h, ?_⟩
    rw [finishInit_ok_mode _ _ _ _ _ h]
    exact or_S_IEXEC_testBit_six st_mode
  · split
    · intro h
      refine ⟨finishInit_ok_mode _ _ _ _ _ h, ?_⟩
      rw [finishInit_ok_mode _ _ _ _ _ h]
      exact or_S_IEXEC_testBit_six st_mode
    · split
      · split
        · intro h
          refine ⟨finishInit_ok_mode _ _ _ _ _ h, ?_⟩
          rw [finishInit_ok_mode _ _ _ _ _ h]
          exact or_S_IEXEC_testBit_six st_mode
        · intro h
          refine ⟨finishInit_ok_mode _ _ _ _ _ h, ?_⟩
          rw [finishInit_ok_mode _ _ _ _ _ h]
          exact or_S_IEXEC_testBit_six st_mode
      · intro h
        simp [Except.isOk, Except.toBool] at h

theorem successful_init_adds_owner_exec_witness :
    (executorInit linuxChars "cpu" 420).1.isOk = true ∧
      ((executorInit linuxChars "cpu" 420).2 = 420 ||| S_IEXEC ∧
        Nat.testBit (executorInit linuxChars "cpu" 420).2 6 = true) :=
  ⟨by decide, successful_init_adds_owner_exec linuxChars "cpu" 420 (by decide)⟩

/-- C7: on any platform outside the four recognized prefixes,
construction raises `NotImplementedError` and the binary's permission
mode is untouched (no chmod happens before the raise). -/
theorem unsupported_platform_raises_no_chmod (platform : List Char)
    (device : String) (st_mode : Nat)
    (h1 : pyStartswith platform linuxChars = false)
    (h2 : pyStartswith platform winChars = false)
    (h3 : pyStartswith platform cygwinChars = false)
    (h4 : pyStartswith platform darwinChars = false) :
    executorInit platform device st_mode = (.error .notImplementedError, st_mode) := by
  simp [executorInit, h1, h2, h3, h4]

theorem unsupported_platform_raises_no_chmod_witness :
    pyStartswith ['s', 'u', 'n', 'o', 's'] linuxChars = false ∧
      pyStartswith ['s', 'u', 'n', 'o', 's'] winChars = false ∧
      pyStartswith ['s', 'u', 'n', 'o', 's'] cygwinChars = false ∧
      pyStartswith ['s', 'u', 'n', 'o', 's'] darwinChars = false ∧
      executorInit ['s', 'u', 'n', 'o', 's'] "gpu" 420 =
        (.error .notImplementedError, 420) :=
  ⟨by decide, by decide, by decide, by decide,
    unsupported_platform_raises_no_chmod ['s', 'u', 'n', 'o', 's'] "gpu" 420
      (by decide) (by decide) (by decide) (by decide)⟩

/-- C10: `_make_binary_executable` ors in exactly the owner-execute
bit: the new mode is the old mode or `S_IEXEC`, and bit `i` of the new
mode is bit `i` of the old mode except that bit 6 is forced on —
nothing is cleared, nothing else is added. -/
theorem make_binary_executable_bit_frame (m : Nat) :
    makeBinaryExecutable m = m ||| S_IEXEC ∧
      ∀ i : Nat, Nat.testBit (makeBinaryExecutable m) i =
        (Nat.testBit m i || decide (i = 6)) := by
  refine ⟨rfl, fun i => ?_⟩
  unfold makeBinaryExecutable
  rw [Nat.testBit_or]
  congr 1
  have h2 : S_IEXEC = 2 ^ 6 := by decide
  rw [h2, Nat.testBit_two_pow]
  simp [eq_comm]

/-- C3 counterexample: with a real non-zero integer exit status (1),
`run_simulation` swallows the failed assert without logging anything —
the claim that it logs on a non-zero status is false (the log line runs
only for a `MagicMock` return value). -/
theorem nonzero_exit_silent_counterexample :
    (runSimulation (fun _ => none) (.intCode 1) (⟨[]⟩ : H5File Nat)).loggedMockSkip
      = false := by
  rfl

/-- C3 (amended): for every non-zero integer exit status,
`run_simulation` does not raise on account of that status and emits no
log message for it (the mock-skip log fires only for a `MagicMock`);
the output container is still opened and the result of the reading
step is returned. -/
theorem nonzero_exit_swallowed_result_returned {α : Type} [Inhabited α]
    (env : String → Option String) (n : Int) (f : H5File α) (hn : n ≠ 0) :
    (runSimulation env (.intCode n) f).raisedFromExitStatus = false ∧
      (runSimulation env (.intCode n) f).loggedMockSkip = false ∧
      (runSimulation env (.intCode n) f).result = readSensorData f := by
  have hb : ((n == 0) : Bool) = false := by
    simp [hn]
  refine ⟨?_, ?_, ?_⟩
  · simp [runSimulation, handleReturnCode, assertPasses, hb]
  · simp [runSimulation, handleReturnCode, assertPasses, hb]
  · show (runWithFile f).1 = readSensorData f
    unfold runWithFile
    cases readSensorData f <;> rfl

theorem nonzero_exit_swallowed_result_returned_witness :
    (1 : Int) ≠ 0 ∧
      ((runSimulation (fun _ => none) (.intCode 1)
          (⟨[("p", [[[5]]])]⟩ : H5File Nat)).raisedFromExitStatus = false ∧
        (runSimulation (fun _ => none) (.intCode 1)
          (⟨[("p", [[[5]]])]⟩ : H5File Nat)).loggedMockSkip = false ∧
        (runSimulation (fun _ => none) (.intCode 1)
            (⟨[("p", [[[5]]])]⟩ : H5File Nat)).result =
          readSensorData (⟨[("p", [[[5]]])]⟩ : H5File Nat)) :=
  ⟨by decide,
    nonzero_exit_swallowed_result_returned (fun _ => none) 1
      (⟨[("p", [[[5]]])]⟩ : H5File Nat) (by decide)⟩

/-- C4: when dataset `p` is present with a non-empty leading axis, the
reading step returns exactly the transpose of the index-0 slice (entry
`(i, j)` of the result is entry `(j, i)` of the slice), and the file
handle is released on every exit path, failures included. -/
theorem read_returns_transpose_of_first_slice {α : Type} [Inhabited α]
    (f : H5File α) (s : List (List α)) (rest : List (List (List α)))
    (i j : Nat)
    (hp : f.datasets.lookup "p" = some (s :: rest))
    (hi : i < (s.headD []).length) (hj : j < s.length) :
    runWithFile f = (.ok (npTranspose s), true) ∧
      ((npTranspose s).getD i []).getD j default = (s.getD j []).getD i default ∧
      ∀ g : H5File α, (runWithFile g).2 = true := by
  refine ⟨?_, npTranspose_entry s i j hi hj, ?_⟩
  · unfold runWithFile readSensorData
    rw [hp]
  · intro g
    unfold runWithFile
    cases readSensorData g <;> rfl

theorem read_returns_transpose_of_first_slice_witness :
    (⟨[("p", [[[1, 2], [3, 4]]])]⟩ : H5File Nat).datasets.lookup "p" =
        some ([[1, 2], [3, 4]] :: []) ∧
      0 < ([[1, 2], [3, 4]].headD []).length ∧
      1 < ([[1, 2], [3, 4]] : List (List Nat)).length ∧
      (runWithFile (⟨[("p", [[[1, 2], [3, 4]]])]⟩ : H5File Nat) =
          (.ok (npTranspose [[1, 2], [3, 4]]), true) ∧
        ((npTranspose ([[1, 2], [3, 4]] : List (List Nat))).getD 0 []).getD 1
            default =
          (([[1, 2], [3, 4]] : List (List Nat)).getD 1 []).getD 0 default ∧
        ∀ g : H5File Nat, (runWithFile g).2 = true) :=
  ⟨rfl, by decide, by decide,
    read_returns_transpose_of_first_slice
      (⟨[("p", [[[1, 2], [3, 4]]])]⟩ : H5File Nat) [[1, 2], [3, 4]] [] 0 1
      rfl (by decide) (by decide)⟩

/-- C5: stacking the load loop's accumulated per-unit arrays along the
new leading axis gives leading dimension `N`, and element `k` of the
leading axis is the result of unit `k + 1` (index order, unit 1 first);
when the per-unit shapes are uniform, the remaining dimensions equal
that shape. -/
theorem load_stack_preserves_index_order {α : Type} (N : Nat)
    (readUnit : Nat → List (List α)) (S : Nat × Nat) (k : Nat)
    (hk : k < N) (hshape : ∀ i : Nat, dims2 (readUnit i) = S) :
    (npStack (loadSimulations N readUnit)).length = N ∧
      (npStack (loadSimulations N readUnit)).getD k [] = readUnit (k + 1) ∧
      dims2 ((npStack (loadSimulations N readUnit)).getD k []) = S := by
  have hmap : npStack (loadSimulations N readUnit) =
      (List.range' 1 N).map readUnit := by
    unfold npStack
    exact loadSimulations_eq_map N readUnit
  have hlen : ((List.range' 1 N).map readUnit).length = N := by simp
  have hklen : k < ((List.range' 1 N).map readUnit).length := by
    rw [hlen]; exact hk
  have hget : ((List.range' 1 N).map readUnit).getD k [] = readUnit (k + 1) := by
    rw [List.getD_eq_getElem _ _ hklen, List.getElem_map, List.getElem_range']
    congr 1
    omega
  refine ⟨by rw [hmap]; exact hlen, by rw [hmap]; exact hget, ?_⟩
  rw [hmap, hget]
  exact hshape (k + 1)

theorem load_stack_preserves_index_order_witness :
    2 < 96 ∧
      (∀ i : Nat, dims2 ((fun _ => ([[0], [0]] : List (List Nat))) i) = (2, 1)) ∧
      ((npStack (loadSimulations 96 (fun _ => ([[0], [0]] : List (List Nat))))).length
          = 96 ∧
        (npStack (loadSimulations 96
            (fun _ => ([[0], [0]] : List (List Nat))))).getD 2 [] =
          (fun _ => ([[0], [0]] : List (List Nat))) 3 ∧
        dims2 ((npStack (loadSimulations 96
            (fun _ => ([[0], [0]] : List (List Nat))))).getD 2 []) = (2, 1)) :=
  ⟨by decide, fun i => rfl,
    load_stack_preserves_index_order 96 (fun _ => ([[0], [0]] : List (List Nat)))
      (2, 1) 2 (by decide) (fun i => rfl)⟩

/-- C6: in the scan loop the sequentially accumulated medium position
equals the closed form at every unit: unit `i` (for `1 ≤ i ≤ N`) reads
the axis-1 window starting at `(i - 1) * step` of width `ny`, exactly
the window computed directly from its index — the fold over indices
refines the closed-form specification. -/
theorem scan_windows_match_closed_form (N step ny i : Nat)
    (h1 : 1 ≤ i) (hN : i ≤ N) :
    (prepareScanWindows N step ny).getD (i - 1) (0, 0) =
      specWindowOfIndex i step ny := by
  have hk : i - 1 < N := by omega
  unfold prepareScanWindows specWindowOfIndex specOffsetOfIndex
  rw [scanLoopWindows_getD step ny N 0 (i - 1) hk]
  simp [Nat.mul_comm]

theorem scan_windows_match_closed_form_witness :
    1 ≤ 5 ∧ 5 ≤ 96 ∧
      (prepareScanWindows 96 2 108).getD 4 (0, 0) =
        specWindowOfIndex 5 2 108 :=
  ⟨by decide, by decide,
    scan_windows_match_closed_form 96 2 108 5 (by decide) (by decide)⟩

/-- C8: after every `run_simulation` call the ambient environment holds
exactly the three overlaid variables — empty `LD_LIBRARY_PATH`,
`OMP_PLACES = cores`, `OMP_PROC_BIND = SPREAD` — and every other key is
unchanged; the overlay is still present in the post-call environment
(it is never rolled back). -/
theorem run_overlays_exactly_three_env_vars {α : Type} [Inhabited α]
    (env : String → Option String) (rc : PyRet) (f : H5File α) :
    (runSimulation env rc f).envAfter "LD_LIBRARY_PATH" = some "" ∧
      (runSimulation env rc f).envAfter "OMP_PLACES" = some "cores" ∧
      (runSimulation env rc f).envAfter "OMP_PROC_BIND" = some "SPREAD" ∧
      ∀ k : String, k ≠ "LD_LIBRARY_PATH" → k ≠ "OMP_PLACES" →
        k ≠ "OMP_PROC_BIND" → (runSimulation env rc f).envAfter k = env k := by
  refine ⟨rfl, rfl, rfl, fun k hk1 hk2 hk3 => ?_⟩
  show osEnvironUpdate env envVariables k = env k
  have hb1 : (k == "LD_LIBRARY_PATH") = false := beq_eq_false_iff_ne.mpr hk1
  have hb2 : (k == "OMP_PLACES") = false := beq_eq_false_iff_ne.mpr hk2
  have hb3 : (k == "OMP_PROC_BIND") = false := beq_eq_false_iff_ne.mpr hk3
  unfold osEnvironUpdate envVariables
  simp [List.lookup, hb1, hb2, hb3]

theorem run_overlays_exactly_three_env_vars_witness :
    ((runSimulation (fun _ => some "x") (.intCode 0)
        (⟨[]⟩ : H5File Nat)).envAfter "LD_LIBRARY_PATH" = some "") ∧
      ((runSimulation (fun _ => some "x") (.intCode 0)
        (⟨[]⟩ : H5File Nat)).envAfter "OMP_PLACES" = some "cores") ∧
      ((runSimulation (fun _ => some "x") (.intCode 0)
        (⟨[]⟩ : H5File Nat)).envAfter "OMP_PROC_BIND" = some "SPREAD") ∧
      ((runSimulation (fun _ => some "x") (.intCode 0)
          (⟨[]⟩ : H5File Nat)).envAfter "HOME" = some "x") :=
  ⟨(run_overlays_exactly_three_env_vars (fun _ => some "x") (.intCode 0)
      (⟨[]⟩ : H5File Nat)).1,
    (run_overlays_exactly_three_env_vars (fun _ => some "x") (.intCode 0)
      (⟨[]⟩ : H5File Nat)).2.1,
    (run_overlays_exactly_three_env_vars (fun _ => some "x") (.intCode 0)
      (⟨[]⟩ : H5File Nat)).2.2.1,
    (run_overlays_exactly_three_env_vars (fun _ => some "x") (.intCode 0)
      (⟨[]⟩ : H5File Nat)).2.2.2 "HOME" (by decide) (by decide) (by decide)⟩
